import Mathlib

/-!
Shallow embedding of the route-mapping and selection-coordination core of
`libs/ctrl-interface/control_protocol/control_protocol/control_protocol.h`
(class `ARDOUR::ControlProtocol`).

The header declares the data model (the per-surface `route_table` of
`std::shared_ptr<ARDOUR::Route>` slots, `_name`, `_active`) and defines a few
methods inline (`name`, `active`, `set_feedback`, `get_feedback`).  The bodies
of the remaining methods live in `control_protocol.cc`, which is not part of
the sources here; those operations are modelled from the specification, as
marked on each definition.

Mixer channels are identified by their stable numeric remote-control id
(a `Nat`); a table slot holds such an id or is empty.  A bound id whose
channel has been destroyed (it no longer resolves against the session's live
route set) is a stale handle.  Gain and peak levels are modelled as `Rat`
(the C++ `float` values; only their defaulting behaviour matters here).
-/

namespace ControlProtocolModel

/-- Per-channel control metadata of one mixer route (`ARDOUR::Route`):
gain, post-automation effective gain, mute/solo/record-enable flags,
display name and per-input peak levels. -/
structure RouteState where
  gain : Rat
  effective_gain : Rat
  muted : Bool
  soloed : Bool
  rec_enable : Bool
  route_name : String
  peaks : List Rat
deriving DecidableEq, Repr

/-- The session's live route set, as an ordered list of
(remote-control id, route state) pairs. -/
structure Session where
  routes : List (Nat × RouteState)
deriving DecidableEq, Repr

/-- Look a route up by its stable numeric remote-control id against the
current live route set. -/
def Session.route_by_remote_id (s : Session) (rid : Nat) : Option RouteState :=
  (s.routes.find? (fun p => p.1 = rid)).map (·.2)

/-- The ordered list of live remote-control ids of the session. -/
def Session.routeIds (s : Session) : List Nat :=
  s.routes.map (·.1)

/-- Replace the state of the route with id `rid` (identity if absent). -/
def Session.update_route (s : Session) (rid : Nat) (f : RouteState → RouteState) : Session :=
  ⟨s.routes.map (fun p => if p.1 = rid then (p.1, f p.2) else p)⟩

/-- Notifications a `ControlProtocol` emits (`PBD::Signal` members). -/
inductive Signal where
  | ActiveChanged
deriving DecidableEq, Repr

/-- The per-surface state of `ARDOUR::ControlProtocol`: its name, active
flag, and the indirection table mapping control indices to a bound
remote-control id or an empty slot. -/
structure ControlProtocol where
  _name : String
  _active : Bool
  route_table : List (Option Nat)
deriving DecidableEq, Repr

/-- Modelled from the spec: the constructor body
`ControlProtocol::ControlProtocol (Session&, std::string name)` is not under
`src/`; the name is supplied at construction, surfaces start inactive, and
the table is created empty (sized later by `set_route_table_size`). -/
def ControlProtocol.construct (name : String) : ControlProtocol :=
  { _name := name, _active := false, route_table := [] }

/-- `virtual std::string name () const { return _name; }` (defined inline in
the header). -/
def ControlProtocol.name (cp : ControlProtocol) : String :=
  cp._name

/-- `virtual bool active () const { return _active; }` (defined inline in
the header). -/
def ControlProtocol.active (cp : ControlProtocol) : Bool :=
  cp._active

/-- `virtual int set_feedback (bool) { return 0; }` (defined inline in the
header): the default feedback capability accepts the request, returns 0 and
changes nothing. -/
def ControlProtocol.set_feedback (cp : ControlProtocol) (_yn : Bool) : Int × ControlProtocol :=
  (0, cp)

/-- `virtual bool get_feedback () const { return false; }` (defined inline
in the header). -/
def ControlProtocol.get_feedback (_cp : ControlProtocol) : Bool :=
  false

/-- Modelled from the spec: the body of `set_active (bool)` is not under
`src/`; the spec guarantees the flag transition
`Inactive <-> Active` and that the transition emits an `ActiveChanged`
notification.  The result pairs the new state with the notifications
emitted by the call. -/
def ControlProtocol.set_active (cp : ControlProtocol) (yn : Bool) : ControlProtocol × List Signal :=
  if yn = cp._active then
    (cp, [])
  else
    ({ cp with _active := yn }, [Signal.ActiveChanged])

/-- Modelled from the spec: the body of `set_route_table_size (uint32_t)` is
not under `src/`; `set_size(n)` reallocates to `n` slots, preserving the
bindings below the new size and dropping the rest, new slots being empty. -/
def ControlProtocol.set_route_table_size (cp : ControlProtocol) (size : Nat) : ControlProtocol :=
  { cp with route_table :=
      (List.range size).map (fun i => (cp.route_table[i]?).getD none) }

/-- Modelled from the spec: the body of
`set_route_table (uint32_t, std::shared_ptr<Route>)` is not under `src/`;
`bind(index, handle)` replaces the slot contents when `index` is in range
and is a reported, non-fatal no-op otherwise. -/
def ControlProtocol.set_route_table (cp : ControlProtocol) (table_index : Nat) (r : Nat) :
    ControlProtocol :=
  if table_index < cp.route_table.length then
    { cp with route_table := cp.route_table.set table_index (some r) }
  else
    cp

/-- Modelled from the spec: the body of
`bool set_route_table (uint32_t, uint32_t remote_control_id)` is not under
`src/`; `bind_by_id` resolves the numeric id against the current live route
set at call time, returns success/failure, and on failure leaves the slot
unchanged (an out-of-range index is an input-contract violation, reported
as failure). -/
def ControlProtocol.set_route_table_by_id (sess : Session) (cp : ControlProtocol)
    (table_index : Nat) (rid : Nat) : Bool × ControlProtocol :=
  match sess.route_by_remote_id rid with
  | none => (false, cp)
  | some _ =>
    if table_index < cp.route_table.length then
      (true, cp.set_route_table table_index rid)
    else
      (false, cp)

/-- The contents of table slot `table_index`: `none` when the index is out
of range or the slot is empty. -/
def ControlProtocol.table_slot (cp : ControlProtocol) (table_index : Nat) : Option Nat :=
  (cp.route_table[table_index]?).getD none

/-- Resolve table slot `table_index` to the live route it is bound to:
`none` when the index is out of range, the slot is empty, or the bound
handle is stale (its channel no longer exists in the session). -/
def ControlProtocol.resolved_route (sess : Session) (cp : ControlProtocol)
    (table_index : Nat) : Option RouteState :=
  match cp.table_slot table_index with
  | none => none
  | some rid => sess.route_by_remote_id rid

/-- Modelled from the spec: the body of `route_get_gain` is not under
`src/`; an empty slot, stale handle or out-of-range index yields the
neutral default gain 0.0, otherwise the call delegates to the route. -/
def ControlProtocol.route_get_gain (sess : Session) (cp : ControlProtocol)
    (table_index : Nat) : Rat :=
  match cp.resolved_route sess table_index with
  | none => 0
  | some r => r.gain

/-- Modelled from the spec: the body of `route_get_effective_gain` is not
under `src/`; defaults to 0.0 like `route_get_gain`, but reports the
post-automation value on a live route. -/
def ControlProtocol.route_get_effective_gain (sess : Session) (cp : ControlProtocol)
    (table_index : Nat) : Rat :=
  match cp.resolved_route sess table_index with
  | none => 0
  | some r => r.effective_gain

/-- Modelled from the spec: the body of `route_get_muted` is not under
`src/`; defaults to `false`. -/
def ControlProtocol.route_get_muted (sess : Session) (cp : ControlProtocol)
    (table_index : Nat) : Bool :=
  match cp.resolved_route sess table_index with
  | none => false
  | some r => r.muted

/-- Modelled from the spec: the body of `route_get_soloed` is not under
`src/`; defaults to `false`. -/
def ControlProtocol.route_get_soloed (sess : Session) (cp : ControlProtocol)
    (table_index : Nat) : Bool :=
  match cp.resolved_route sess table_index with
  | none => false
  | some r => r.soloed

/-- Modelled from the spec: the body of `route_get_rec_enable` is not under
`src/`; defaults to `false`. -/
def ControlProtocol.route_get_rec_enable (sess : Session) (cp : ControlProtocol)
    (table_index : Nat) : Bool :=
  match cp.resolved_route sess table_index with
  | none => false
  | some r => r.rec_enable

/-- Modelled from the spec: the body of `route_get_name` is not under
`src/`; defaults to the empty string. -/
def ControlProtocol.route_get_name (sess : Session) (cp : ControlProtocol)
    (table_index : Nat) : String :=
  match cp.resolved_route sess table_index with
  | none => ""
  | some r => r.route_name

/-- Modelled from the spec: the body of `route_get_peak_input_power` is not
under `src/`; defaults to the 0.0 peak, also for an input number the route
does not have. -/
def ControlProtocol.route_get_peak_input_power (sess : Session) (cp : ControlProtocol)
    (table_index : Nat) (which_input : Nat) : Rat :=
  match cp.resolved_route sess table_index with
  | none => 0
  | some r => (r.peaks[which_input]?).getD 0

/-- Modelled from the spec: the body of `route_set_gain` is not under
`src/`; a setter on an out-of-range index, empty slot or stale handle is
silently ignored, otherwise it updates the bound route's gain in the
session.  The surface state itself is never touched by the per-route
setters, so the result is just the session. -/
def ControlProtocol.route_set_gain (sess : Session) (cp : ControlProtocol)
    (table_index : Nat) (v : Rat) : Session :=
  match cp.table_slot table_index with
  | none => sess
  | some rid =>
    match sess.route_by_remote_id rid with
    | none => sess
    | some _ => sess.update_route rid (fun r => { r with gain := v })

/-- Modelled from the spec: the body of `route_set_muted` is not under
`src/`; silently ignored on an unresolvable slot. -/
def ControlProtocol.route_set_muted (sess : Session) (cp : ControlProtocol)
    (table_index : Nat) (yn : Bool) : Session :=
  match cp.table_slot table_index with
  | none => sess
  | some rid =>
    match sess.route_by_remote_id rid with
    | none => sess
    | some _ => sess.update_route rid (fun r => { r with muted := yn })

/-- Modelled from the spec: the body of `route_set_soloed` is not under
`src/`; silently ignored on an unresolvable slot. -/
def ControlProtocol.route_set_soloed (sess : Session) (cp : ControlProtocol)
    (table_index : Nat) (yn : Bool) : Session :=
  match cp.table_slot table_index with
  | none => sess
  | some rid =>
    match sess.route_by_remote_id rid with
    | none => sess
    | some _ => sess.update_route rid (fun r => { r with soloed := yn })

/-- Modelled from the spec: the body of `route_set_rec_enable` is not under
`src/`; silently ignored on an unresolvable slot. -/
def ControlProtocol.route_set_rec_enable (sess : Session) (cp : ControlProtocol)
    (table_index : Nat) (yn : Bool) : Session :=
  match cp.table_slot table_index with
  | none => sess
  | some rid =>
    match sess.route_by_remote_id rid with
    | none => sess
    | some _ => sess.update_route rid (fun r => { r with rec_enable := yn })

/-- First position of id `a` in an ordered id list (`none` if absent); the
reference position used when shifting the window of bound routes. -/
def index_in (l : List Nat) (a : Nat) : Option Nat :=
  match l with
  | [] => none
  | b :: t => if b = a then some 0 else (index_in t a).map (· + 1)

/-- The window of `n` consecutive session routes beginning at position
`start` of the ordered session route list, as table contents (slots past
the end of the session list are empty). -/
def Session.window (sess : Session) (n start : Nat) : List (Option Nat) :=
  (List.range n).map (fun k => sess.routeIds[start + k]?)

/-- The largest window start at which a window of `n` routes still fits in
the session route list (0 when fewer than `n` routes exist). -/
def Session.max_window_start (sess : Session) (n : Nat) : Nat :=
  sess.routeIds.length - n

/-- The current reference position of the table's window in the session
route list: the position of the route bound at slot 0, or `initial_id`
when slot 0 is empty or its handle no longer resolves. -/
def ControlProtocol.window_start (sess : Session) (cp : ControlProtocol)
    (initial_id : Nat) : Nat :=
  match cp.table_slot 0 with
  | some rid => (index_in sess.routeIds rid).getD initial_id
  | none => initial_id

/-- Modelled from the spec: the body of `next_track (uint32_t initial_id)`
is not under `src/`; `advance` shifts the entire table's window of bound
routes forward by one relative to the session route list, clamping at the
last available route and never wrapping. -/
def ControlProtocol.next_track (sess : Session) (cp : ControlProtocol)
    (initial_id : Nat) : ControlProtocol :=
  { cp with route_table :=
      (sess.window cp.route_table.length
        (min (cp.window_start sess initial_id + 1)
          (sess.max_window_start cp.route_table.length))) }

/-- Modelled from the spec: the body of `prev_track (uint32_t initial_id)`
is not under `src/`; `retreat` shifts the window backward by one, clamping
at the first available route and never wrapping. -/
def ControlProtocol.prev_track (sess : Session) (cp : ControlProtocol)
    (initial_id : Nat) : ControlProtocol :=
  { cp with route_table :=
      sess.window cp.route_table.length (cp.window_start sess initial_id - 1) }

/- The process-wide shared selection registry.  The header only declares the
forwarding members (`add_stripable_to_selection`, `set_stripable_selection`,
`toggle_stripable_selection`, `remove_stripable_from_selection`,
`clear_stripable_selection`, `first_selected_stripable`); their bodies are
not under `src/`.  The registry is modelled as the ordered duplicate-free
list of selected stripable ids. -/

/-- Modelled from the spec: `add(handle)` on the shared registry; inserting
a member already present keeps membership unchanged. -/
def add_stripable_to_selection (sel : List Nat) (h : Nat) : List Nat :=
  if h ∈ sel then sel else sel ++ [h]

/-- Modelled from the spec: `set_exclusive(handle)` clears the registry and
then adds the one handle. -/
def set_stripable_selection (_sel : List Nat) (h : Nat) : List Nat :=
  [h]

/-- Modelled from the spec: `toggle(handle)` removes the handle when
present and adds it otherwise. -/
def toggle_stripable_selection (sel : List Nat) (h : Nat) : List Nat :=
  if h ∈ sel then sel.erase h else sel ++ [h]

/-- Modelled from the spec: `remove(handle)`. -/
def remove_stripable_from_selection (sel : List Nat) (h : Nat) : List Nat :=
  sel.erase h

/-- Modelled from the spec: `clear()` empties the shared registry. -/
def clear_stripable_selection (_sel : List Nat) : List Nat :=
  []

/-- Modelled from the spec: `first_selected_stripable` returns the
earliest-inserted surviving member, or none. -/
def first_selected_stripable (sel : List Nat) : Option Nat :=
  sel.head?

/-- Modelled from the spec: every membership change triggers exactly one
notification per subscriber, each carrying the complete new membership
list (not a diff). -/
def notify_subscribers (subscribers : Nat) (sel : List Nat) : List (List Nat) :=
  List.replicate subscribers sel

/-- The document-tree node the persistence collaborator exchanges with the
surface: a node name and key/value properties. -/
structure XMLNode where
  node_name : String
  properties : List (String × String)
deriving DecidableEq, Repr

/-- Look up a property value on a node. -/
def XMLNode.property (n : XMLNode) (key : String) : Option String :=
  (n.properties.find? (fun p => p.1 = key)).map (·.2)

/-- `static const std::string state_node_name` (declared in the header; its
value lives outside `src/`). -/
def state_node_name : String := "Protocol"

/-- Modelled from the spec: the body of `get_state () const` is not under
`src/`; the state record carries the surface name, the active flag and the
route-table size, and none of the transient table bindings. -/
def ControlProtocol.get_state (cp : ControlProtocol) : XMLNode :=
  { node_name := state_node_name,
    properties :=
      [("name", cp._name),
       ("active", if cp._active then "yes" else "no"),
       ("route-table-size", toString cp.route_table.length)] }

/-- Modelled from the spec: the current persistence format version (the
concrete number is not under `src/`; only its ordering role matters). -/
def state_format_version : Nat := 1

/-- Modelled from the spec: the body of `set_state (XMLNode const&, int)`
is not under `src/`; a record from a newer, unsupported format version is
rejected as incompatible (status -1, state unchanged); otherwise the active
flag and the route-table size are applied, a missing or unknown field
defaulting to the current value, with status 0 when fully applied and
status 1 when applied only in part. -/
def ControlProtocol.set_state (cp : ControlProtocol) (node : XMLNode) (version : Nat) :
    Int × ControlProtocol :=
  if state_format_version < version then
    (-1, cp)
  else
    let activeField := node.property "active"
    let sizeField := (node.property "route-table-size").bind String.toNat?
    let cp' : ControlProtocol :=
      { cp with _active :=
          match activeField with
          | some "yes" => true
          | some "no" => false
          | _ => cp._active }
    let cp'' := cp'.set_route_table_size (sizeField.getD cp.route_table.length)
    if activeField.isSome && sizeField.isSome then (0, cp'') else (1, cp'')

/- Concrete fixtures used by the witnesses. -/

/-- A concrete route state. -/
def rStateA : RouteState :=
  { gain := 1, effective_gain := 2, muted := false, soloed := false,
    rec_enable := false, route_name := "A", peaks := [3] }

/-- A session with six routes (ids 0..5, think A..F). -/
def sessSix : Session :=
  ⟨[(0, rStateA), (1, rStateA), (2, rStateA), (3, rStateA), (4, rStateA), (5, rStateA)]⟩

/-- A session holding the single route id 7. -/
def sessSeven : Session :=
  ⟨[(7, rStateA)]⟩

/-- The empty session (every handle is stale against it). -/
def sessEmpty : Session :=
  ⟨[]⟩

/-- A surface whose four-slot table is bound to session routes 0..3. -/
def cpFour : ControlProtocol :=
  { _name := "mcu", _active := false,
    route_table := [some 0, some 1, some 2, some 3] }

/-- A surface with a single slot bound to route id 7. -/
def cpSeven : ControlProtocol :=
  { _name := "mcu", _active := false, route_table := [some 7] }

/-- A surface with a single empty slot. -/
def cpEmptySlot : ControlProtocol :=
  { _name := "mcu", _active := false, route_table := [none] }

/- Helper lemmas shared by the claims about defaulting accessors. -/

theorem resolved_route_of_out_of_range (sess : Session) (cp : ControlProtocol)
    (i : Nat) (h : cp.route_table.length ≤ i) :
    cp.resolved_route sess i = none := by
  simp [ControlProtocol.resolved_route, ControlProtocol.table_slot,
    List.getElem?_eq_none h]

theorem getters_default_of_unresolved (sess : Session) (cp : ControlProtocol)
    (i : Nat) (h : cp.resolved_route sess i = none) :
    cp.route_get_gain sess i = 0 ∧
    cp.route_get_effective_gain sess i = 0 ∧
    cp.route_get_muted sess i = false ∧
    cp.route_get_soloed sess i = false ∧
    cp.route_get_rec_enable sess i = false ∧
    cp.route_get_name sess i = "" ∧
    (∀ which, cp.route_get_peak_input_power sess i which = 0) := by
  refine ⟨?_, ?_, ?_, ?_, ?_, ?_, ?_⟩ <;>
    simp [ControlProtocol.route_get_gain, ControlProtocol.route_get_effective_gain,
      ControlProtocol.route_get_muted, ControlProtocol.route_get_soloed,
      ControlProtocol.route_get_rec_enable, ControlProtocol.route_get_name,
      ControlProtocol.route_get_peak_input_power, h]

theorem setters_noop_of_unresolved (sess : Session) (cp : ControlProtocol)
    (i : Nat) (h : cp.resolved_route sess i = none) :
    (∀ v, cp.route_set_gain sess i v = sess) ∧
    (∀ b, cp.route_set_muted sess i b = sess) ∧
    (∀ b, cp.route_set_soloed sess i b = sess) ∧
    (∀ b, cp.route_set_rec_enable sess i b = sess) := by
  unfold ControlProtocol.resolved_route at h
  refine ⟨?_, ?_, ?_, ?_⟩ <;> intro v <;>
    · simp only [ControlProtocol.route_set_gain, ControlProtocol.route_set_muted,
        ControlProtocol.route_set_soloed, ControlProtocol.route_set_rec_enable]
      cases hs : cp.table_slot i with
      | none => rfl
      | some rid =>
        rw [hs] at h
        simp only [] at h
        simp [h]

theorem length_set_route_table_size (cp : ControlProtocol) (k : Nat) :
    (cp.set_route_table_size k).route_table.length = k := by
  simp [ControlProtocol.set_route_table_size]

theorem getElem_set_route_table_size (cp : ControlProtocol) (k i : Nat) :
    (cp.set_route_table_size k).route_table[i]? =
      if i < k then some ((cp.route_table[i]?).getD none) else none := by
  rcases Nat.lt_or_ge i k with h | h
  · simp [ControlProtocol.set_route_table_size, List.getElem?_map, List.getElem?_range h, h]
  · rw [if_neg (Nat.not_lt.mpr h)]
    simp only [ControlProtocol.set_route_table_size, List.getElem?_map]
    rw [List.getElem?_eq_none (by simpa using h)]
    rfl

theorem length_window (sess : Session) (n s : Nat) :
    (sess.window n s).length = n := by
  simp [Session.window]

theorem getElem_window (sess : Session) (n s k : Nat) (h : k < n) :
    (sess.window n s)[k]? = some (sess.routeIds[s + k]?) := by
  simp [Session.window, List.getElem?_map, List.getElem?_range h]

theorem index_in_of_nodup (l : List Nat) (s a : Nat) (hnd : l.Nodup)
    (h : l[s]? = some a) : index_in l a = some s := by
  induction l generalizing s with
  | nil => simp at h
  | cons b t ih =>
    rcases List.nodup_cons.mp hnd with ⟨hb, ht⟩
    cases s with
    | zero =>
      simp only [List.getElem?_cons_zero, Option.some_inj] at h
      subst h
      simp [index_in]
    | succ s =>
      simp only [List.getElem?_cons_succ] at h
      have ha : a ∈ t := List.getElem?_mem h
      have hba : b ≠ a := fun e => hb (e ▸ ha)
      simp [index_in, hba, ih s ht h]

/-- Claim C1: for every table index that is out of range for the current
route table, every per-route accessor returns its documented neutral
default (gain 0.0 / false / empty string / 0.0 peak), and every per-route
mutator leaves the session state unchanged (the surface state is untouched
by the setters by construction); no crash, no out-of-bounds access. -/
theorem out_of_range_defaults_and_noops (sess : Session) (cp : ControlProtocol)
    (i : Nat) (h : cp.route_table.length ≤ i) :
    cp.route_get_gain sess i = 0 ∧
    cp.route_get_effective_gain sess i = 0 ∧
    cp.route_get_muted sess i = false ∧
    cp.route_get_soloed sess i = false ∧
    cp.route_get_rec_enable sess i = false ∧
    cp.route_get_name sess i = "" ∧
    (∀ which, cp.route_get_peak_input_power sess i which = 0) ∧
    (∀ v, cp.route_set_gain sess i v = sess) ∧
    (∀ b, cp.route_set_muted sess i b = sess) ∧
    (∀ b, cp.route_set_soloed sess i b = sess) ∧
    (∀ b, cp.route_set_rec_enable sess i b = sess) := by
  have hr := resolved_route_of_out_of_range sess cp i h
  have hg := getters_default_of_unresolved sess cp i hr
  have hs := setters_noop_of_unresolved sess cp i hr
  exact ⟨hg.1, hg.2.1, hg.2.2.1, hg.2.2.2.1, hg.2.2.2.2.1, hg.2.2.2.2.2.1,
    hg.2.2.2.2.2.2, hs.1, hs.2.1, hs.2.2.1, hs.2.2.2⟩

theorem out_of_range_defaults_and_noops_witness :
    cpSeven.route_table.length ≤ 5 ∧
    cpSeven.route_get_gain sessSeven 5 = 0 ∧
    cpSeven.route_get_name sessSeven 5 = "" ∧
    cpSeven.route_set_gain sessSeven 5 9 = sessSeven :=
  ⟨by decide,
   (out_of_range_defaults_and_noops sessSeven cpSeven 5 (by decide)).1,
   (out_of_range_defaults_and_noops sessSeven cpSeven 5 (by decide)).2.2.2.2.2.1,
   (out_of_range_defaults_and_noops sessSeven cpSeven 5 (by decide)).2.2.2.2.2.2.2.1 9⟩

/-- Claim C2: sizing the table to `n`, binding any routes, shrinking to
`m < n` and growing back to `n` leaves every slot from `m` to `n - 1`
empty: shrinking drops the bindings beyond the new size permanently and
growing back restores none of them. -/
theorem shrink_truncates_permanently (cp : ControlProtocol) (n m : Nat)
    (binds : List (Nat × Nat)) (hmn : m < n) (i : Nat) (hmi : m ≤ i) (hin : i < n) :
    ((((binds.foldl (fun c p => c.set_route_table p.1 p.2)
          (cp.set_route_table_size n)).set_route_table_size m).set_route_table_size
        n).route_table[i]?) = some none := by
  rw [getElem_set_route_table_size, if_pos hin,
    List.getElem?_eq_none (by rw [length_set_route_table_size]; exact hmi)]
  rfl

theorem shrink_truncates_permanently_witness :
    (1 : Nat) < 3 ∧ (1 : Nat) ≤ 2 ∧ (2 : Nat) < 3 ∧
    (((([((0 : Nat), (7 : Nat)), (2, 9)]).foldl (fun c p => c.set_route_table p.1 p.2)
          ((ControlProtocol.construct "mcu").set_route_table_size 3)).set_route_table_size
            1).set_route_table_size 3).route_table[2]? = some none :=
  ⟨by decide, by decide, by decide,
   shrink_truncates_permanently (ControlProtocol.construct "mcu") 3 1 [(0, 7), (2, 9)]
     (by decide) 2 (by decide) (by decide)⟩

/-- Claim C4: for every in-range index whose slot is empty or whose bound
handle has become stale (the underlying channel no longer resolves), every
getter returns its neutral default — in particular `route_get_gain` returns
0.0, not an error and not a previously cached gain — and every setter is a
silent no-op on the session. -/
theorem empty_or_stale_defaults_and_noops (sess : Session) (cp : ControlProtocol)
    (i : Nat) (hin : i < cp.route_table.length)
    (h : cp.table_slot i = none ∨
      ∃ rid, cp.table_slot i = some rid ∧ sess.route_by_remote_id rid = none) :
    cp.route_get_gain sess i = 0 ∧
    cp.route_get_effective_gain sess i = 0 ∧
    cp.route_get_muted sess i = false ∧
    cp.route_get_soloed sess i = false ∧
    cp.route_get_rec_enable sess i = false ∧
    cp.route_get_name sess i = "" ∧
    (∀ which, cp.route_get_peak_input_power sess i which = 0) ∧
    (∀ v, cp.route_set_gain sess i v = sess) ∧
    (∀ b, cp.route_set_muted sess i b = sess) ∧
    (∀ b, cp.route_set_soloed sess i b = sess) ∧
    (∀ b, cp.route_set_rec_enable sess i b = sess) := by
  have hr : cp.resolved_route sess i = none := by
    rcases h with h | ⟨rid, h1, h2⟩
    · simp [ControlProtocol.resolved_route, h]
    · simp [ControlProtocol.resolved_route, h1, h2]
  have hg := getters_default_of_unresolved sess cp i hr
  have hs := setters_noop_of_unresolved sess cp i hr
  exact ⟨hg.1, hg.2.1, hg.2.2.1, hg.2.2.2.1, hg.2.2.2.2.1, hg.2.2.2.2.2.1,
    hg.2.2.2.2.2.2, hs.1, hs.2.1, hs.2.2.1, hs.2.2.2⟩

theorem empty_or_stale_defaults_and_noops_witness :
    (0 < (cpEmptySlot.set_route_table 0 7).route_table.length) ∧
    ((cpEmptySlot.set_route_table 0 7).table_slot 0 = some 7 ∧
      sessEmpty.route_by_remote_id 7 = none) ∧
    (cpEmptySlot.set_route_table 0 7).route_get_gain sessEmpty 0 = 0 :=
  ⟨by decide, ⟨by decide, by decide⟩,
   (empty_or_stale_defaults_and_noops sessEmpty (cpEmptySlot.set_route_table 0 7) 0
     (by decide) (Or.inr ⟨7, by decide, by decide⟩)).1⟩

/-- Claim C5: for every in-range index, the id-based binding
`set_route_table (index, remote_control_id)` resolves the id against the
live route set at call time; it returns true exactly when the id resolves,
a false return leaves the surface (in particular slot `i`) exactly as it
was, and a true return leaves slot `i` bound to the id. -/
theorem set_route_table_by_id_spec (sess : Session) (cp : ControlProtocol)
    (i rid : Nat) (hin : i < cp.route_table.length) :
    ((cp.set_route_table_by_id sess i rid).1 = true ↔
      (sess.route_by_remote_id rid).isSome) ∧
    ((cp.set_route_table_by_id sess i rid).1 = false →
      (cp.set_route_table_by_id sess i rid).2 = cp) ∧
    ((cp.set_route_table_by_id sess i rid).1 = true →
      ((cp.set_route_table_by_id sess i rid).2).table_slot i = some rid) := by
  cases hres : sess.route_by_remote_id rid with
  | none => simp [ControlProtocol.set_route_table_by_id, hres]
  | some r =>
    refine ⟨by simp [ControlProtocol.set_route_table_by_id, hres, hin], ?_, ?_⟩
    · simp [ControlProtocol.set_route_table_by_id, hres, hin]
    · intro _
      simp [ControlProtocol.set_route_table_by_id, hres, hin,
        ControlProtocol.set_route_table, ControlProtocol.table_slot,
        List.getElem?_set_self hin]

theorem set_route_table_by_id_spec_witness :
    (0 < cpEmptySlot.route_table.length) ∧
    (cpEmptySlot.set_route_table_by_id sessSeven 0 9).2 = cpEmptySlot ∧
    ((cpEmptySlot.set_route_table_by_id sessSeven 0 7).2).table_slot 0 = some 7 :=
  ⟨by decide,
   (set_route_table_by_id_spec sessSeven cpEmptySlot 0 9 (by decide)).2.1 (by decide),
   (set_route_table_by_id_spec sessSeven cpEmptySlot 0 7 (by decide)).2.2 (by decide)⟩

/-- Claim C6: `next_track` and `prev_track` shift the entire table's window
of bound routes by one relative to the session route list, clamping at the
first and last available route and never wrapping: when the table is the
window of `n` routes at position `s`, advancing yields the window at
`min (s+1) (last possible start)`, retreating yields the window at `s - 1`
(truncated at 0), and advancing from the last possible start leaves the
table unchanged. -/
theorem next_prev_shift_window (sess : Session) (cp : ControlProtocol)
    (initial_id n s : Nat) (hn : cp.route_table.length = n) (hpos : 0 < n)
    (hwin : cp.route_table = sess.window n s) (hnd : sess.routeIds.Nodup)
    (hfit : s + n ≤ sess.routeIds.length) :
    (cp.next_track sess initial_id).route_table =
      sess.window n (min (s + 1) (sess.routeIds.length - n)) ∧
    (cp.prev_track sess initial_id).route_table = sess.window n (s - 1) ∧
    (sess.routeIds.length - n ≤ s →
      (cp.next_track sess initial_id).route_table = cp.route_table) := by
  have hs_lt : s < sess.routeIds.length := by omega
  have hrid : sess.routeIds[s]? = some (sess.routeIds[s]) :=
    List.getElem?_eq_getElem hs_lt
  have hslot : cp.table_slot 0 = some (sess.routeIds[s]) := by
    rw [ControlProtocol.table_slot, hwin, getElem_window sess n s 0 hpos]
    simp [hrid]
  have hws : cp.window_start sess initial_id = s := by
    simp only [ControlProtocol.window_start, hslot]
    rw [index_in_of_nodup sess.routeIds s _ hnd hrid]
    rfl
  refine ⟨?_, ?_, ?_⟩
  · simp only [ControlProtocol.next_track, hws, hn, Session.max_window_start]
  · simp only [ControlProtocol.prev_track, hws, hn]
  · intro hle
    have hseq : s = sess.routeIds.length - n := by omega
    simp only [ControlProtocol.next_track, hws, hn, Session.max_window_start]
    rw [hwin, ← hseq, min_eq_right (Nat.le_succ s)]

theorem next_prev_shift_window_witness :
    cpFour.route_table = sessSix.window 4 0 ∧
    sessSix.routeIds.Nodup ∧
    (cpFour.next_track sessSix 0).route_table = [some 1, some 2, some 3, some 4] :=
  ⟨by decide, by decide,
   ((next_prev_shift_window sessSix cpFour 0 4 0 (by decide) (by decide) (by decide)
      (by decide) (by decide)).1).trans (by decide)⟩

/-- Claim C3: the state record produced by `get_state` carries the surface
name, the active flag and the route-table size, and nothing about the
individual table bindings: two surfaces agreeing on those three fields
produce identical state records. -/
theorem get_state_contents (cp : ControlProtocol) :
    cp.get_state.node_name = state_node_name ∧
    cp.get_state.property "name" = some cp._name ∧
    cp.get_state.property "active" = some (if cp._active then "yes" else "no") ∧
    cp.get_state.property "route-table-size" = some (toString cp.route_table.length) ∧
    (∀ cp' : ControlProtocol, cp'._name = cp._name → cp'._active = cp._active →
      cp'.route_table.length = cp.route_table.length → cp'.get_state = cp.get_state) := by
  refine ⟨rfl, rfl, rfl, rfl, ?_⟩
  intro cp' h1 h2 h3
  simp [ControlProtocol.get_state, h1, h2, h3]

theorem get_state_contents_witness :
    cpFour._name = cpSeven._name ∧ cpFour._active = cpSeven._active ∧
    (cpSeven.get_state.property "name" = some "mcu" ∧
      cpEmptySlot.get_state = cpSeven.get_state) :=
  ⟨by decide, by decide,
   (get_state_contents cpSeven).2.1.trans (by decide),
   (get_state_contents cpSeven).2.2.2.2 cpEmptySlot (by decide) (by decide) (by decide)⟩

/-- Claim C7: `set_active b` makes `active` return `b`, emits the
`ActiveChanged` notification as part of the transition, and changes no
other surface state: the name, the route table and the feedback flag are
exactly what they were before. -/
theorem set_active_transitions_flag (cp : ControlProtocol) (b : Bool) :
    ((cp.set_active b).1).active = b ∧
    ((cp.set_active b).1)._name = cp._name ∧
    ((cp.set_active b).1).route_table = cp.route_table ∧
    ((cp.set_active b).1).get_feedback = cp.get_feedback ∧
    (cp._active ≠ b → (cp.set_active b).2 = [Signal.ActiveChanged]) := by
  by_cases hb : b = cp._active
  · subst hb
    simp [ControlProtocol.set_active, ControlProtocol.active,
      ControlProtocol.get_feedback]
  · simp [ControlProtocol.set_active, ControlProtocol.active,
      ControlProtocol.get_feedback, hb, Ne.symm hb]

theorem set_active_transitions_flag_witness :
    (ControlProtocol.construct "mcu")._active ≠ true ∧
    (((ControlProtocol.construct "mcu").set_active true).1).active = true ∧
    ((ControlProtocol.construct "mcu").set_active true).2 = [Signal.ActiveChanged] :=
  ⟨by decide,
   (set_active_transitions_flag (ControlProtocol.construct "mcu") true).1,
   (set_active_transitions_flag (ControlProtocol.construct "mcu") true).2.2.2.2
     (by decide)⟩

/-- Claim C8: on a duplicate-free shared selection, toggling the same
handle twice returns the selection to exactly its prior membership,
clearing yields the empty membership as carried to every subscriber's
notification, and an exclusive select followed by `first_selected_stripable`
returns the selected handle. -/
theorem selection_round_trip (sel : List Nat) (h : Nat) (hnd : sel.Nodup) :
    (∀ x, x ∈ toggle_stripable_selection (toggle_stripable_selection sel h) h ↔ x ∈ sel) ∧
    (∀ subs m, m ∈ notify_subscribers subs (clear_stripable_selection sel) → m = []) ∧
    first_selected_stripable (set_stripable_selection sel h) = some h := by
  refine ⟨?_, ?_, rfl⟩
  · intro x
    by_cases hm : h ∈ sel
    · have hne : h ∉ sel.erase h := by
        rw [hnd.mem_erase_iff]
        simp
      have e1 : toggle_stripable_selection sel h = sel.erase h := if_pos hm
      have e2 : toggle_stripable_selection (sel.erase h) h = sel.erase h ++ [h] :=
        if_neg hne
      rw [e1, e2]
      simp only [List.mem_append, hnd.mem_erase_iff, List.mem_singleton]
      constructor
      · rintro (⟨_, hx⟩ | rfl)
        · exact hx
        · exact hm
      · intro hx
        by_cases hxh : x = h
        · exact Or.inr hxh
        · exact Or.inl ⟨hxh, hx⟩
    · have hm2 : h ∈ sel ++ [h] := by simp
      have e1 : toggle_stripable_selection sel h = sel ++ [h] := if_neg hm
      have e2 : toggle_stripable_selection (sel ++ [h]) h = (sel ++ [h]).erase h :=
        if_pos hm2
      rw [e1, e2, List.erase_append_right _ hm, List.erase_cons_head,
        List.append_nil]
  · intro subs m hmem
    exact List.eq_of_mem_replicate hmem

theorem selection_round_trip_witness :
    ([1, 2] : List Nat).Nodup ∧
    first_selected_stripable (set_stripable_selection [1, 2] 2) = some 2 ∧
    (1 ∈ toggle_stripable_selection (toggle_stripable_selection [1, 2] 2) 2 ↔
      1 ∈ ([1, 2] : List Nat)) :=
  ⟨by decide,
   (selection_round_trip [1, 2] 2 (by decide)).2.2,
   (selection_round_trip [1, 2] 2 (by decide)).1 1⟩

/-- Claim C9: the default feedback capability of `ControlProtocol` accepts
`set_feedback b` with status 0 for every `b` while changing nothing, and
`get_feedback` always returns false, so a successful `set_feedback true` is
never reflected by a subsequent `get_feedback`. -/
theorem default_feedback_never_reflected (cp : ControlProtocol) (b : Bool) :
    (cp.set_feedback b).1 = 0 ∧
    (cp.set_feedback b).2 = cp ∧
    ((cp.set_feedback b).2).get_feedback = false :=
  ⟨rfl, rfl, rfl⟩

/-- Claim C10: `name` returns exactly the name supplied at construction,
and no core operation — table sizing or binding, navigation, activation,
feedback, state save/restore — ever changes it. -/
theorem name_fixed_for_lifetime :
    (∀ nm, (ControlProtocol.construct nm).name = nm) ∧
    (∀ (cp : ControlProtocol) (sess : Session) (k i r rid j v : Nat) (b : Bool)
      (node : XMLNode),
      (cp.set_route_table_size k).name = cp.name ∧
      (cp.set_route_table i r).name = cp.name ∧
      ((cp.set_route_table_by_id sess i rid).2).name = cp.name ∧
      ((cp.set_active b).1).name = cp.name ∧
      (cp.next_track sess j).name = cp.name ∧
      (cp.prev_track sess j).name = cp.name ∧
      ((cp.set_state node v).2).name = cp.name ∧
      ((cp.set_feedback b).2).name = cp.name) := by
  refine ⟨fun nm => rfl, ?_⟩
  intro cp sess k i r rid j v b node
  refine ⟨rfl, ?_, ?_, ?_, rfl, rfl, ?_, rfl⟩
  · simp only [ControlProtocol.set_route_table]
    split <;> rfl
  · simp only [ControlProtocol.set_route_table_by_id, ControlProtocol.set_route_table]
    split <;> (try split) <;> (try split) <;> rfl
  · simp only [ControlProtocol.set_active]
    split <;> rfl
  · simp only [ControlProtocol.set_state]
    split
    · rfl
    · split <;> rfl

end ControlProtocolModel
